import Mathlib

/-!
Verification of the resilient network fetch & dispatch subsystem of the
RSSBOTTELEGRAM repository, against its natural-language specification.

Shallow embedding: the relevant Python functions from `src/parsing/tgraph.py`,
`src/web.py` and `src/helpers/queue/_helper.py` are translated into executable
Lean definitions.  Asynchronous control flow is linearised: each model takes an
explicit script of the outcomes of the external effects (HTTP attempts, image
decoder invocations, queue contents) and computes what the Python control flow
does with them.  Python integers are `Nat`/`Int`, Python floats appearing only
in exact arithmetic are `ℚ`.
-/

namespace Tgraph

/-! ### Embedding of `src/parsing/tgraph.py` -/

/-- The externally observable action taken by one call to
`Telegraph.flood_wait` (tgraph.py lines 76-89). -/
inductive FloodAction where
  /-- `self._fc_lock.locked()` was already true: the call returns at once. -/
  | alreadyBlocked
  /-- The gate `_fc_lock` is acquired and held during `asyncio.sleep(seconds)`. -/
  | wait (seconds : Nat)
  /-- `create_account` is called (the account's token is replaced), no sleep. -/
  | replaceAccount
deriving DecidableEq, Repr

/-- Embeds `Telegraph.flood_wait(self, retry_after)` (tgraph.py lines 76-89):
if the flood-control lock is not already held, it is acquired, `retry_after`
is incremented by one, and then either a new account is created (when the
incremented value is `>= 60`) or the lock is held for that many seconds. -/
def flood_wait (fcLockLocked : Bool) (retry_after : Nat) : FloodAction :=
  if fcLockLocked then
    FloodAction.alreadyBlocked
  else
    let retry_after := retry_after + 1
    if 60 ≤ retry_after then
      FloodAction.replaceAccount
    else
      FloodAction.wait retry_after

/-- Outcome of one `create_page` attempt inside `TelegraphIfy.telegraph_ify`
(tgraph.py lines 339-345), as seen by its exception handlers. -/
inductive PageOutcome where
  /-- `create_page` returned a page. -/
  | success
  /-- `aiograph.exceptions.TelegraphError` with message `FLOOD_WAIT_n`. -/
  | floodWait (n : Nat)
  /-- `TimeoutError` or `asyncio.TimeoutError`. -/
  | timeoutErr
  /-- `ClientError` or `ConnectionError`. -/
  | netErr
  /-- Any other `aiograph.exceptions.TelegraphError`. -/
  | telegraphErr
deriving DecidableEq, Repr

/-- Result of `TelegraphIfy.telegraph_ify` on a script of attempt outcomes. -/
inductive TgIfyResult where
  /-- The page URL is returned. -/
  | ok
  /-- `raise OverflowError` at entry (tgraph.py lines 332-333). -/
  | overflowRaised
  /-- A timeout is re-raised (tgraph.py lines 357-358). -/
  | timeoutRaised
  /-- A `ClientError`/`ConnectionError` is re-raised (tgraph.py line 364). -/
  | netRaised
  /-- A non-flood `TelegraphError` is re-raised (tgraph.py line 356). -/
  | telegraphRaised
  /-- The outcome script was exhausted: the code would call `create_page`
  again (the recursion has not terminated within the script). -/
  | pending
deriving DecidableEq, Repr

/-- Embeds `TelegraphIfy.telegraph_ify(self)` (tgraph.py lines 329-364).
`retries` is `self.retries`; `script` lists the outcome of each successive
`create_page` attempt.  At entry, `retries >= 3` raises `OverflowError`.
On a flood wait, `self.retries` is incremented and the call recurses; on a
timeout the error propagates; on a `ClientError`/`ConnectionError` the call
recurses when `self.retries < 3` (the counter is NOT incremented on this
path) and otherwise re-raises; any other `TelegraphError` is re-raised. -/
def telegraph_ify (retries : Nat) (script : List PageOutcome) : TgIfyResult :=
  if 3 ≤ retries then
    TgIfyResult.overflowRaised
  else
    match script with
    | [] => TgIfyResult.pending
    | PageOutcome.success :: _ => TgIfyResult.ok
    | PageOutcome.floodWait _ :: rest => telegraph_ify (retries + 1) rest
    | PageOutcome.timeoutErr :: _ => TgIfyResult.timeoutRaised
    | PageOutcome.netErr :: rest =>
        if retries < 3 then telegraph_ify retries rest else TgIfyResult.netRaised
    | PageOutcome.telegraphErr :: _ => TgIfyResult.telegraphRaised

/-- In `telegraph_ify`, the re-raise of a network error (tgraph.py line 364)
is unreachable: it would require `self.retries >= 3` inside the `try` block,
but the entry check has already raised `OverflowError` in that case, and the
network-error handler never increments `self.retries`. -/
lemma telegraph_ify_ne_netRaised (retries : Nat) (script : List PageOutcome) :
    telegraph_ify retries script ≠ TgIfyResult.netRaised := by
  induction script generalizing retries with
  | nil =>
      unfold telegraph_ify
      split <;> simp
  | cons o rest ih =>
      unfold telegraph_ify
      split
      · simp
      · rename_i hlt
        match o with
        | PageOutcome.success => simp
        | PageOutcome.floodWait n => exact ih (retries + 1)
        | PageOutcome.timeoutErr => simp
        | PageOutcome.netErr =>
            have hr : retries < 3 := by omega
            simp only [hr, if_true]
            exact ih retries
        | PageOutcome.telegraphErr => simp

end Tgraph

/-- C1 counterexample: the claim says a "flood wait 59" signal (59 < 60) makes
the account's gate be acquired and held for 60 seconds, but the code tests
`retry_after >= 60` after the increment, so at N = 59 it provisions a
replacement account instead of waiting. -/
theorem c1_flood_wait_threshold_counterexample :
    59 < 60 ∧
    Tgraph.flood_wait false 59 ≠ Tgraph.FloodAction.wait 60 ∧
    Tgraph.flood_wait false 59 = Tgraph.FloodAction.replaceAccount := by
  refine ⟨by decide, by decide, by decide⟩

/-- C1 (amended): on a "flood wait N" signal arriving while the gate is free,
if N + 1 < 60 the gate is acquired and held for N + 1 seconds, and if
N + 1 ≥ 60 (that is, N ≥ 59) a replacement account is provisioned without
waiting. -/
theorem c1_flood_wait_behaviour (n : Nat) :
    (n + 1 < 60 → Tgraph.flood_wait false n = Tgraph.FloodAction.wait (n + 1)) ∧
    (60 ≤ n + 1 → Tgraph.flood_wait false n = Tgraph.FloodAction.replaceAccount) := by
  constructor
  · intro h
    unfold Tgraph.flood_wait
    have h60 : ¬ 60 ≤ n + 1 := by omega
    simp [h60]
  · intro h
    unfold Tgraph.flood_wait
    simp [h]

/-- C1 witness: a "flood wait 10" waits 11 seconds; a "flood wait 90" replaces
the account. -/
theorem c1_flood_wait_behaviour_witness :
    Tgraph.flood_wait false 10 = Tgraph.FloodAction.wait 11 ∧
    Tgraph.flood_wait false 90 = Tgraph.FloodAction.replaceAccount :=
  ⟨(c1_flood_wait_behaviour 10).1 (by decide),
   (c1_flood_wait_behaviour 90).2 (by decide)⟩

/-- C2: contrary to the claim that publication is retried at most 3 times
total and that transient network errors are re-raised once attempts are
exhausted, the code's retry counter is only incremented on flood control, so
after 4 consecutive network errors the code is still about to attempt again
(`pending`), and the network-error re-raise is unreachable for every retry
count and every outcome script. -/
theorem c2_net_retry_unbounded :
    Tgraph.telegraph_ify 0 (List.replicate 4 Tgraph.PageOutcome.netErr) =
      Tgraph.TgIfyResult.pending ∧
    ∀ (retries : Nat) (script : List Tgraph.PageOutcome),
      Tgraph.telegraph_ify retries script ≠ Tgraph.TgIfyResult.netRaised := by
  exact ⟨by decide, Tgraph.telegraph_ify_ne_netRaised⟩

/-- C2 witness: a concrete instance of the unreachable re-raise, at retry
count 0 and a one-error script. -/
theorem c2_net_retry_unbounded_witness :
    Tgraph.telegraph_ify 0 [Tgraph.PageOutcome.netErr] ≠ Tgraph.TgIfyResult.netRaised :=
  c2_net_retry_unbounded.2 0 [Tgraph.PageOutcome.netErr]

namespace Web

/-! ### Embedding of `src/web.py` -/

/-- Socket family selected for a connection attempt in `_get`
(web.py lines 194, 206-207): `AF_INET6`, `AF_INET`, or `0` (unspecified). -/
inductive Family where
  | v6
  | v4
  | unspec
deriving DecidableEq, Repr

/-- Outcome of one connection attempt (the body of the `while True` loop of
`_get`, web.py lines 215-244), as seen by its handlers. -/
inductive AttemptOutcome where
  /-- The request completed with this HTTP status. -/
  | status (code : Nat)
  /-- An exception in `EXCEPTIONS_SHOULD_RETRY` escaped the retry client
  (web.py lines 50-55, 237). -/
  | retryableExc
  /-- Any other exception: it propagates uncaught. -/
  | fatalExc
deriving DecidableEq, Repr

/-- The status codes that trigger the IPv4 fallback (web.py lines 226-229). -/
def ipv4FallbackStatuses : List Nat := [400, 403, 429, 451]

/-- How a `_get` call ends. -/
inductive GetOutcome where
  /-- A `WebResponse` with this status is returned. -/
  | responded (code : Nat)
  /-- An exception propagates to the caller. -/
  | raised
  /-- The `assert tries <= 2` at web.py line 204 fails. -/
  | assertFailure
  /-- The attempt script was exhausted (the loop would attempt again). -/
  | scriptExhausted
deriving DecidableEq, Repr

/-- Trace of a `_get` call: how it ended, and the socket family used by each
connection attempt, in order. -/
structure GetTrace where
  outcome : GetOutcome
  families : List Family
deriving DecidableEq, Repr

/-- Embeds the `while True` loop of `_get` (web.py lines 200-244).
`tries` is the counter before the `tries += 1` at the loop head;
`retryInV4` is `retry_in_v4_flag`; `family` is `socket_family`; `script`
lists the outcome of each successive connection attempt.
Status 200 reads the body and returns; a status in `ipv4FallbackStatuses`
on the very first attempt while the family is `AF_INET6` sets the flag and
continues; a retryable exception re-raises unless the family is `AF_INET6`
and this was the first attempt, in which case it sets the flag and
continues; any other status returns; any other exception propagates. -/
def getAttemptLoop (tries : Nat) (retryInV4 : Bool) (family : Family)
    (script : List AttemptOutcome) : GetTrace :=
  let tries := tries + 1
  if 2 < tries then
    { outcome := GetOutcome.assertFailure, families := [] }
  else
    let family := if retryInV4 then Family.v4 else family
    match script with
    | [] => { outcome := GetOutcome.scriptExhausted, families := [] }
    | o :: rest =>
      match o with
      | AttemptOutcome.status code =>
          if code = 200 then
            { outcome := GetOutcome.responded code, families := [family] }
          else if family = Family.v6 ∧ tries = 1 ∧ code ∈ ipv4FallbackStatuses then
            let t := getAttemptLoop tries true family rest
            { outcome := t.outcome, families := family :: t.families }
          else
            { outcome := GetOutcome.responded code, families := [family] }
      | AttemptOutcome.retryableExc =>
          if family ≠ Family.v6 ∨ 1 < tries then
            { outcome := GetOutcome.raised, families := [family] }
          else
            let t := getAttemptLoop tries true family rest
            { outcome := t.outcome, families := family :: t.families }
      | AttemptOutcome.fatalExc =>
          { outcome := GetOutcome.raised, families := [family] }

/-- Embeds `_get` (web.py lines 182-244): the initial socket family is
`AF_INET6` exactly when IPv6 priority is enabled and the 1-second AAAA
lookup succeeded (web.py lines 187-194); then the attempt loop runs with
`tries = 0` and the flag clear. -/
def get_attempts (ipv6Resolved : Bool) (script : List AttemptOutcome) : GetTrace :=
  getAttemptLoop 0 false (if ipv6Resolved then Family.v6 else Family.unspec) script

/-- The condition of C3 on the first attempt's outcome: a retryable transient
error, or a status in {400, 403, 429, 451}. -/
def ipv4FallbackTrigger : AttemptOutcome → Bool
  | AttemptOutcome.retryableExc => true
  | AttemptOutcome.status code => decide (code ∈ ipv4FallbackStatuses)
  | AttemptOutcome.fatalExc => false

/-- After the flag is set on the first attempt, the second attempt uses
`AF_INET` and always ends the loop. -/
lemma getAttemptLoop_v4_retry (o2 : AttemptOutcome) (rest : List AttemptOutcome) :
    (getAttemptLoop 1 true Family.v6 (o2 :: rest)).families = [Family.v4] ∧
    (getAttemptLoop 1 true Family.v6 (o2 :: rest)).outcome ≠ GetOutcome.assertFailure := by
  cases o2 with
  | status code =>
      by_cases hc : code = 200 <;>
        simp [getAttemptLoop, hc, ipv4FallbackStatuses]
  | retryableExc => simp [getAttemptLoop]
  | fatalExc => simp [getAttemptLoop]

end Web

/-- C3: for every `_get` call, at most 2 connection attempts are made and the
`assert tries <= 2` never fails; a second attempt is made, forcing IPv4, if
and only if the first attempt used IPv6 and either raised a retryable
transient error or returned a status in {400, 403, 429, 451}. -/
theorem c3_get_attempt_bound (ipv6 : Bool) (o1 o2 : Web.AttemptOutcome)
    (rest : List Web.AttemptOutcome) :
    (Web.get_attempts ipv6 (o1 :: o2 :: rest)).outcome ≠ Web.GetOutcome.assertFailure ∧
    (Web.get_attempts ipv6 (o1 :: o2 :: rest)).families.length ≤ 2 ∧
    ((Web.get_attempts ipv6 (o1 :: o2 :: rest)).families.length = 2 ↔
      ipv6 = true ∧ Web.ipv4FallbackTrigger o1 = true) ∧
    ((Web.get_attempts ipv6 (o1 :: o2 :: rest)).families.length = 2 →
      (Web.get_attempts ipv6 (o1 :: o2 :: rest)).families = [Web.Family.v6, Web.Family.v4]) := by
  cases ipv6 with
  | false =>
      cases o1 with
      | status code =>
          by_cases hc : code = 200 <;>
            simp [Web.get_attempts, Web.getAttemptLoop, Web.ipv4FallbackTrigger, hc]
      | retryableExc =>
          simp [Web.get_attempts, Web.getAttemptLoop, Web.ipv4FallbackTrigger]
      | fatalExc =>
          simp [Web.get_attempts, Web.getAttemptLoop, Web.ipv4FallbackTrigger]
  | true =>
      cases o1 with
      | status code =>
          by_cases hc : code = 200
          · simp [Web.get_attempts, Web.getAttemptLoop, Web.ipv4FallbackTrigger, hc,
                  Web.ipv4FallbackStatuses]
          · by_cases hin : code ∈ Web.ipv4FallbackStatuses
            · cases o2 <;>
                simp [Web.get_attempts, Web.getAttemptLoop, Web.ipv4FallbackTrigger, hc, hin]
            · simp [Web.get_attempts, Web.getAttemptLoop, Web.ipv4FallbackTrigger, hc, hin]
      | retryableExc =>
          cases o2 <;>
            simp [Web.get_attempts, Web.getAttemptLoop, Web.ipv4FallbackTrigger]
      | fatalExc =>
          simp [Web.get_attempts, Web.getAttemptLoop, Web.ipv4FallbackTrigger]

/-- C3 witness: with IPv6 preferred, a 429 on the first attempt leads to
exactly two attempts, IPv6 then IPv4. -/
theorem c3_get_attempt_bound_witness :
    (Web.get_attempts true
        [Web.AttemptOutcome.status 429, Web.AttemptOutcome.status 200]).families =
      [Web.Family.v6, Web.Family.v4] :=
  (c3_get_attempt_bound true (Web.AttemptOutcome.status 429)
      (Web.AttemptOutcome.status 200) []).2.2.2 (by decide)

namespace Web

/-- Log levels of the Python `logging` module, as used in `src/log`. -/
def logDEBUG : Nat := 10

/-- Log level WARNING. -/
def logWARNING : Nat := 30

/-- Log level ERROR. -/
def logERROR : Nat := 40

/-- Class of an exception escaping the `try` block of `feed_get`
(web.py lines 293-303), in the order the `except` clauses test them. -/
inductive ExcClass where
  /-- `aiohttp.InvalidURL` (tested first, web.py line 293). -/
  | invalidURL
  /-- `asyncio.TimeoutError`. -/
  | timeoutExc
  /-- `aiohttp.ClientError`. -/
  | clientErr
  /-- `ssl.SSLError`. -/
  | sslErr
  /-- `OSError`. -/
  | osErr
  /-- `ConnectionError`. -/
  | connectionErr
  /-- `TimeoutError`. -/
  | builtinTimeoutErr
  /-- Any other exception (caught by `except Exception`, web.py line 302). -/
  | otherExc
deriving DecidableEq, Repr

/-- The response observed by `feed_get` when the inner `get` returns
(web.py lines 259-263).  `contentLength` is the parsed value of the
`Content-Length` header when present (a malformed header is out of scope:
`int()` on it raises and is classified like any other exception). -/
structure RespModel where
  http_status : Int
  contentLength : Option Nat
  content : Option String
deriving DecidableEq, Repr

/-- What happens inside `feed_get` after the inner `get` call: either a
response comes back, or an exception of some class is raised. -/
inductive FetchEvent where
  | resp (r : RespModel)
  | raised (e : ExcClass)
deriving DecidableEq, Repr

/-- Result of `feedparser.parse` on the body (web.py lines 280-288): the
parsed dict has a top-level `title`, lacks one, or parsing raised. -/
inductive ParseEvent where
  | hasTitle
  | noTitle
  | parseRaised
deriving DecidableEq, Repr

/-- Model of `WebError` (web.py lines 69-99): the error name, the attached
`base_error` (when any), and the level at which construction logs. -/
structure WebErrorM where
  error_name : String
  base_error : Option ExcClass
  log_level : Nat
deriving DecidableEq, Repr

/-- Model of the `WebFeed` returned by `feed_get` (web.py lines 111-118),
restricted to the fields the claims are about: the final status, whether a
parsed feed structure (`rss_d`) is present, and the captured error. -/
structure WebFeedM where
  http_status : Int
  rss_d : Option Unit
  error : Option WebErrorM
deriving DecidableEq, Repr

/-- Embeds `feed_get` (web.py lines 247-305).  The fetch event and the parse
event stand for the outcomes of the inner `get` call and of
`feedparser.parse`; everything else is the function's own control flow:
status 200 with a declared `Content-Length` of 0 is rewritten to 304 and
returned; status 304 is returned; a missing body yields a status-code
error; a parsed feed without a title yields a feed-invalid error; every
exception is captured into `ret.error` by the `except` clauses in order. -/
def feed_get (ev : FetchEvent) (parseEv : ParseEvent) (verbose : Bool) : WebFeedM :=
  let log_level := if verbose then logWARNING else logDEBUG
  match ev with
  | FetchEvent.raised e =>
    match e with
    | ExcClass.invalidURL =>
        { http_status := -1, rss_d := none,
          error := some ⟨"URL invalid", none, log_level⟩ }
    | ExcClass.timeoutExc | ExcClass.clientErr | ExcClass.sslErr
    | ExcClass.osErr | ExcClass.connectionErr | ExcClass.builtinTimeoutErr =>
        { http_status := -1, rss_d := none,
          error := some ⟨"network error", some e, log_level⟩ }
    | ExcClass.otherExc =>
        { http_status := -1, rss_d := none,
          error := some ⟨"internal error", some e, logERROR⟩ }
  | FetchEvent.resp r =>
    if r.http_status = 200 ∧ r.contentLength.getD 1 = 0 then
      { http_status := 304, rss_d := none, error := none }
    else if r.http_status = 304 then
      { http_status := 304, rss_d := none, error := none }
    else
      match r.content with
      | none =>
          { http_status := r.http_status, rss_d := none,
            error := some ⟨"status code error", none, log_level⟩ }
      | some _ =>
        match parseEv with
        | ParseEvent.parseRaised =>
            { http_status := r.http_status, rss_d := none,
              error := some ⟨"internal error", some ExcClass.otherExc, logERROR⟩ }
        | ParseEvent.noTitle =>
            { http_status := r.http_status, rss_d := none,
              error := some ⟨"feed invalid", none, log_level⟩ }
        | ParseEvent.hasTitle =>
            { http_status := r.http_status, rss_d := some (), error := none }

/-- The error `feed_get` is specified (claim C6) to record for each
exception class: `URL invalid` for a malformed URL, `network error` with
the cause attached for the timeout/SSL/OS/connection classes, `internal
error` logged at ERROR severity for everything else. -/
def classifiedError (e : ExcClass) (log_level : Nat) : WebErrorM :=
  match e with
  | ExcClass.invalidURL => ⟨"URL invalid", none, log_level⟩
  | ExcClass.otherExc => ⟨"internal error", some e, logERROR⟩
  | _ => ⟨"network error", some e, log_level⟩

end Web

/-- C4: a response with status 304, or with status 200 and a declared
`Content-Length` of 0, makes `feed_get` short-circuit before parsing with
no error and no parsed feed structure. -/
theorem c4_feed_get_not_modified (r : Web.RespModel) (p : Web.ParseEvent) (v : Bool)
    (h : r.http_status = 304 ∨ (r.http_status = 200 ∧ r.contentLength = some 0)) :
    (Web.feed_get (Web.FetchEvent.resp r) p v).error = none ∧
    (Web.feed_get (Web.FetchEvent.resp r) p v).rss_d = none := by
  rcases h with h304 | ⟨h200, hcl⟩
  · have hne : ¬ (r.http_status = 200 ∧ r.contentLength.getD 1 = 0) := by
      intro hc
      rw [h304] at hc
      exact absurd hc.1 (by decide)
    simp [Web.feed_get, hne, h304]
  · simp [Web.feed_get, h200, hcl]

/-- C4 witness: a concrete 304 response and a concrete 200 response with
`Content-Length: 0`. -/
theorem c4_feed_get_not_modified_witness :
    (Web.feed_get (Web.FetchEvent.resp ⟨304, some 1234, none⟩)
        Web.ParseEvent.hasTitle true).error = none ∧
    (Web.feed_get (Web.FetchEvent.resp ⟨200, some 0, some "body"⟩)
        Web.ParseEvent.hasTitle true).rss_d = none :=
  ⟨(c4_feed_get_not_modified ⟨304, some 1234, none⟩ Web.ParseEvent.hasTitle true
      (Or.inl rfl)).1,
   (c4_feed_get_not_modified ⟨200, some 0, some "body"⟩ Web.ParseEvent.hasTitle true
      (Or.inr ⟨rfl, rfl⟩)).2⟩

/-- C6: `feed_get` never raises (the model is a total function into
`WebFeedM`), and every exception class is captured into the result's error
field exactly as classified: `URL invalid` for a malformed URL, `network
error` with the cause attached for timeout/SSL/OS/connection-class
exceptions, `internal error` logged at ERROR severity for anything else. -/
theorem c6_feed_get_exception_classification (e : Web.ExcClass) (p : Web.ParseEvent)
    (v : Bool) :
    (Web.feed_get (Web.FetchEvent.raised e) p v).error =
      some (Web.classifiedError e (if v then Web.logWARNING else Web.logDEBUG)) := by
  cases e <;> cases v <;> rfl

namespace Web

/-- `bytes.startswith` on byte lists: the first list is a leading run of the
second. -/
def bytesLeads : List Nat → List Nat → Bool
  | [], _ => true
  | _ :: _, [] => false
  | p :: ps, x :: xs => p = x && bytesLeads ps xs

/-- Python `bytes.find` (web.py line 342) on byte lists: index of the first
occurrence of `pat` as a contiguous run, or `none` (for `-1`). -/
def findSubIdx (pat : List Nat) : List Nat → Option Nat
  | [] => if bytesLeads pat [] then some 0 else none
  | x :: xs =>
      if bytesLeads pat (x :: xs) then some 0
      else (findSubIdx pat xs).map (· + 1)

/-- The marker search of `__medium_info_callback` (web.py lines 340-345):
the markers `FF C2`, `FF C1`, `FF C0` are tried in that order and the first
one present anywhere in the buffer wins. -/
def markerScan (file_header : List Nat) : Option Nat :=
  match findSubIdx [0xff, 0xc2] file_header with
  | some p => some p
  | none =>
    match findSubIdx [0xff, 0xc1] file_header with
    | some p => some p
    | none => findSubIdx [0xff, 0xc0] file_header

/-- Python slice `l[a:b]` on byte lists (for `0 ≤ a ≤ b`). -/
def pySlice (l : List Nat) (a b : Nat) : List Nat := (l.drop a).take (b - a)

/-- `int(bs.hex(), 16)`: the bytes read as one big-endian integer
(web.py lines 347-348). -/
def bytesBE (bs : List Nat) : Nat := bs.foldl (fun acc b => acc * 256 + b) 0

/-- The JPEG SOF fallback of `__medium_info_callback` (web.py lines 338-349):
find a marker, and if one is found at `pointer` with `pointer + 9` within
the buffer, return `(width, height)` read from the slices
`[pointer+7 : pointer+9]` and `[pointer+5 : pointer+7]`. -/
def jpeg_sof_scan (file_header : List Nat) : Option (Nat × Nat) :=
  match markerScan file_header with
  | none => none
  | some pointer =>
      if pointer + 9 ≤ file_header.length then
        some (bytesBE (pySlice file_header (pointer + 7) (pointer + 9)),
              bytesBE (pySlice file_header (pointer + 5) (pointer + 7)))
      else
        none

/-- Outcome of one `PIL.Image.open` attempt on the buffer so far
(web.py lines 331-337). -/
inductive PILOutcome where
  /-- The incremental decode succeeded with this size. -/
  | decoded (w h : Nat)
  /-- `UnidentifiedImageError`: not a format PIL can handle. -/
  | unidentified
  /-- Any other decode failure. -/
  | failed
deriving DecidableEq, Repr

/-- Embeds the chunked reading loop of `__medium_info_callback`
(web.py lines 323-353).  Each script entry is one chunk of the stream with
the outcome of the decode attempt made after buffering it: a successful
decode returns the size; `UnidentifiedImageError` returns `(-1, -1)`; any
other failure on a JPEG-typed stream scans the buffer for an SOF marker and
returns the extracted size when one fits; otherwise the loop returns
`(-1, -1)` once the read cap is reached, and `(-1, -1)` if the stream ends
first. -/
def medium_info_loop (is_jpeg : Bool) (max_read_length already_read : Nat)
    (buffer : List Nat) : List (List Nat × PILOutcome) → Int × Int
  | [] => (-1, -1)
  | (chunk, outcome) :: rest =>
      let already_read := already_read + chunk.length
      let buffer := buffer ++ chunk
      match outcome with
      | PILOutcome.decoded w h => ((w : Int), (h : Int))
      | PILOutcome.unidentified => (-1, -1)
      | PILOutcome.failed =>
          match (if is_jpeg then jpeg_sof_scan buffer else none) with
          | some (w, h) => ((w : Int), (h : Int))
          | none =>
              if max_read_length ≤ already_read then (-1, -1)
              else medium_info_loop is_jpeg max_read_length already_read buffer rest

/-- The big-endian 16-bit integer at offset `i` of a byte list, as the claim
describes the extracted fields. -/
def be16 (l : List Nat) (i : Nat) : Nat := 256 * l.getD i 0 + l.getD (i + 1) 0

/-- A two-element Python slice, elementwise. -/
lemma take_two_drop (l : List Nat) (a : Nat) (h : a + 2 ≤ l.length) :
    (l.drop a).take 2 = [l.getD a 0, l.getD (a + 1) 0] := by
  induction l generalizing a with
  | nil => simp at h
  | cons x xs ih =>
      cases a with
      | zero =>
          cases xs with
          | nil => simp at h
          | cons y ys => simp
      | succ a' =>
          simp only [List.drop_succ_cons, List.getD_cons_succ]
          exact ih a' (by simpa using h)

/-- Two bytes read big-endian. -/
lemma bytesBE_pair (b0 b1 : Nat) : bytesBE [b0, b1] = 256 * b0 + b1 := by
  simp [bytesBE]
  ring

end Web

/-- C5: on a JPEG-typed stream whose decode attempt fails with an error other
than the unrecognized-format one, if the marker scan (0xFFC2, then 0xFFC1,
then 0xFFC0) finds a marker at position `p` with `p + 9` within the buffered
bytes, the loop returns width = the big-endian 16-bit integer at bytes
`[p+7, p+9)` and height = the big-endian 16-bit integer at bytes
`[p+5, p+7)`, immediately, whatever the rest of the stream holds. -/
theorem c5_jpeg_sof_extraction (buffer chunk : List Nat)
    (rest : List (List Nat × Web.PILOutcome)) (max_read already p : Nat)
    (hp : Web.markerScan (buffer ++ chunk) = some p)
    (hlen : p + 9 ≤ (buffer ++ chunk).length) :
    Web.medium_info_loop true max_read already buffer
        ((chunk, Web.PILOutcome.failed) :: rest) =
      ((Web.be16 (buffer ++ chunk) (p + 7) : Int),
       (Web.be16 (buffer ++ chunk) (p + 5) : Int)) := by
  have hscan : Web.jpeg_sof_scan (buffer ++ chunk) =
      some (Web.be16 (buffer ++ chunk) (p + 7), Web.be16 (buffer ++ chunk) (p + 5)) := by
    unfold Web.jpeg_sof_scan
    rw [hp]
    have h97 : p + 9 - (p + 7) = 2 := by omega
    have h75 : p + 7 - (p + 5) = 2 := by omega
    simp only [hlen, if_true, Web.pySlice, h97, h75]
    rw [Web.take_two_drop _ _ (by omega), Web.take_two_drop _ _ (by omega)]
    rw [Web.bytesBE_pair, Web.bytesBE_pair]
    simp [Web.be16]
  unfold Web.medium_info_loop
  simp only [if_true]
  rw [hscan]

/-- C5 witness: a 9-byte truncated JPEG whose `FF C0` marker sits at offset 0
yields width 640 (bytes 0x02 0x80 at offsets 7-8) and height 264 (bytes
0x01 0x08 at offsets 5-6). -/
theorem c5_jpeg_sof_extraction_witness :
    Web.medium_info_loop true 5120 0 []
        [([0xff, 0xc0, 0x00, 0x11, 0x08, 0x01, 0x08, 0x02, 0x80],
          Web.PILOutcome.failed)] = (640, 264) := by
  have h := c5_jpeg_sof_extraction []
      [0xff, 0xc0, 0x00, 0x11, 0x08, 0x01, 0x08, 0x02, 0x80] [] 5120 0 0
      (by decide) (by decide)
  rw [h]
  decide

namespace QueueHelper

/-! ### Embedding of `src/helpers/queue/_helper.py` -/

/-- An entry of the dispatcher queue: a work payload (the `(args, kwargs)`
pair, abstracted to an identifier) or the stop sentinel `(None, None)`. -/
inductive QEntry where
  | work (payload : Nat)
  | sentinel
deriving DecidableEq, Repr

/-- How the consumer loop ends on a given queue content. -/
inductive ConsumerFate where
  /-- `break` after observing the sentinel: normal termination. -/
  | finished
  /-- The queue content was exhausted: the consumer is suspended in
  `queue.get()` awaiting more entries. -/
  | blocked
deriving DecidableEq, Repr

/-- Embeds `QueuedHelper._consumer` (_helper.py lines 36-59) run over the
listed queue content: each work entry spawns a fire-and-forget task for the
wrapped function (collected in order), and the first sentinel breaks the
loop; with no entry left the consumer stays suspended on `queue.get()`. -/
def consumer : List QEntry → List Nat × ConsumerFate
  | [] => ([], ConsumerFate.blocked)
  | QEntry.sentinel :: _ => ([], ConsumerFate.finished)
  | QEntry.work a :: rest =>
      let r := consumer rest
      (a :: r.1, r.2)

/-- The action `QueuedHelper.close_sync` takes (_helper.py lines 74-87). -/
inductive CloseAction where
  /-- The consumer task is absent or already done: return False. -/
  | noConsumer
  /-- `queue.put_nowait((None, None))`: the sentinel is pushed. -/
  | pushedSentinel
  /-- `self._consumer_task.cancel()`. -/
  | cancelledConsumer
deriving DecidableEq, Repr

/-- Embeds `QueuedHelper.close_sync` (_helper.py lines 74-87): when the
consumer is running, an empty queue receives the stop sentinel and a
non-empty queue makes the consumer task be cancelled instead; the returned
pair is the action taken and the queue content after it. -/
def close_sync (consumer_done : Bool) (queue : List QEntry) :
    CloseAction × List QEntry :=
  if consumer_done then
    (CloseAction.noConsumer, queue)
  else if queue.isEmpty then
    (CloseAction.pushedSentinel, queue ++ [QEntry.sentinel])
  else
    (CloseAction.cancelledConsumer, queue)

/-- Joint outcome of a shutdown: what the consumer does after `close_sync`,
with cancellation stopping it before it can consume anything further. -/
inductive ShutdownOutcome where
  /-- The consumer observed the sentinel and exited normally, having spawned
  tasks for exactly the listed payloads beforehand. -/
  | consumerExited (spawned : List Nat)
  /-- The consumer task was cancelled; no queued entry is consumed. -/
  | consumerCancelled
  /-- The consumer is still suspended awaiting entries, having spawned tasks
  for the listed payloads. -/
  | consumerStillBlocked (spawned : List Nat)
  /-- `close_sync` found no running consumer. -/
  | nothingDone
deriving DecidableEq, Repr

/-- `close_sync` followed by letting the (non-cancelled) consumer run over
whatever the queue then holds. -/
def shutdown_run (consumer_done : Bool) (queue : List QEntry) : ShutdownOutcome :=
  match close_sync consumer_done queue with
  | (CloseAction.noConsumer, _) => ShutdownOutcome.nothingDone
  | (CloseAction.cancelledConsumer, _) => ShutdownOutcome.consumerCancelled
  | (CloseAction.pushedSentinel, q) =>
      match consumer q with
      | (s, ConsumerFate.finished) => ShutdownOutcome.consumerExited s
      | (s, ConsumerFate.blocked) => ShutdownOutcome.consumerStillBlocked s

end QueueHelper

/-- C7: with the consumer running, a shutdown on an empty queue pushes the
stop sentinel and the consumer exits normally after observing it without
consuming further work (whatever is enqueued after the sentinel included),
while a shutdown on a non-empty queue cancels the consumer task outright so
the queued entries are never consumed. -/
theorem c7_close_sync_shutdown (q later : List QueueHelper.QEntry) :
    QueueHelper.shutdown_run false [] = QueueHelper.ShutdownOutcome.consumerExited [] ∧
    QueueHelper.consumer (QueueHelper.QEntry.sentinel :: later) =
      ([], QueueHelper.ConsumerFate.finished) ∧
    (q ≠ [] →
      QueueHelper.shutdown_run false q = QueueHelper.ShutdownOutcome.consumerCancelled) := by
  refine ⟨by decide, rfl, ?_⟩
  intro hq
  unfold QueueHelper.shutdown_run QueueHelper.close_sync
  have : q.isEmpty = false := by
    cases q with
    | nil => exact absurd rfl hq
    | cons a as => rfl
  simp [this]

/-- C7 witness: a queue holding five work entries is shut down by cancelling
the consumer. -/
theorem c7_close_sync_shutdown_witness :
    QueueHelper.shutdown_run false (List.replicate 5 (QueueHelper.QEntry.work 0)) =
      QueueHelper.ShutdownOutcome.consumerCancelled :=
  (c7_close_sync_shutdown (List.replicate 5 (QueueHelper.QEntry.work 0)) []).2.2
    (by decide)

namespace Web

/-- The `timeout` actually used by `get` (web.py lines 170-171): the Python
falsiness test `if not timeout` replaces `None` and `0` by 12. -/
def effectiveTimeout (timeout : Option ℚ) : ℚ :=
  match timeout with
  | none => 12
  | some t => if t = 0 then 12 else t

/-- The outer deadline of `get` (web.py line 172):
`(timeout * 2 + 5) * (2 if env.IPV6_PRIOR else 1)`. -/
def wait_for_timeout (timeout : ℚ) (ipv6_prior : Bool) : ℚ :=
  (timeout * 2 + 5) * (if ipv6_prior then 2 else 1)

/-- How the `asyncio.wait_for` wrapper in `get` ends. -/
inductive GetWaitResult where
  /-- The inner `_get` finished within the deadline and its result is
  returned. -/
  | completed (r : GetOutcome)
  /-- The deadline elapsed first: `asyncio.TimeoutError` is raised and the
  inner call is cancelled, whatever its internal retry state. -/
  | timeoutRaised
deriving DecidableEq, Repr

/-- Embeds `get` (web.py lines 157-179): `_get` (whose internal behaviour is
summarised by its total running time `inner_elapsed` and its result
`inner`) is wrapped in `asyncio.wait_for` with the deadline above. -/
def get (timeout : Option ℚ) (ipv6_prior : Bool) (inner_elapsed : ℚ)
    (inner : GetOutcome) : GetWaitResult :=
  if wait_for_timeout (effectiveTimeout timeout) ipv6_prior < inner_elapsed then
    GetWaitResult.timeoutRaised
  else
    GetWaitResult.completed inner

end Web

/-- C8: for a positive caller-supplied timeout `t`, the whole `get` call runs
under an outer deadline of exactly `(t*2 + 5) * (2 if IPv6-priority else 1)`
seconds; an inner run exceeding it raises Timeout regardless of internal
retry state, and one within it returns the inner result. -/
theorem c8_outer_deadline (t : ℚ) (ht : 0 < t) (ipv6 : Bool) (elapsed : ℚ)
    (inner : Web.GetOutcome) :
    Web.wait_for_timeout (Web.effectiveTimeout (some t)) ipv6 =
      (t * 2 + 5) * (if ipv6 then 2 else 1) ∧
    ((t * 2 + 5) * (if ipv6 then 2 else 1) < elapsed →
      Web.get (some t) ipv6 elapsed inner = Web.GetWaitResult.timeoutRaised) ∧
    (elapsed ≤ (t * 2 + 5) * (if ipv6 then 2 else 1) →
      Web.get (some t) ipv6 elapsed inner = Web.GetWaitResult.completed inner) := by
  have ht0 : t ≠ 0 := ne_of_gt ht
  have heff : Web.effectiveTimeout (some t) = t := by
    simp [Web.effectiveTimeout, ht0]
  refine ⟨by rw [heff]; rfl, ?_, ?_⟩
  · intro h
    unfold Web.get
    rw [heff]
    simp only [Web.wait_for_timeout, h, if_true]
  · intro h
    unfold Web.get
    rw [heff]
    have : ¬ Web.wait_for_timeout t ipv6 < elapsed := by
      unfold Web.wait_for_timeout
      exact not_lt.mpr h
    simp [this]

/-- C8 witness: with a 12-second timeout and IPv6 priority the deadline is
58 seconds; an inner run of 100 seconds raises Timeout and one of 30
seconds completes. -/
theorem c8_outer_deadline_witness :
    Web.get (some 12) true 100 (Web.GetOutcome.responded 200) =
      Web.GetWaitResult.timeoutRaised ∧
    Web.get (some 12) true 30 (Web.GetOutcome.responded 200) =
      Web.GetWaitResult.completed (Web.GetOutcome.responded 200) :=
  ⟨(c8_outer_deadline 12 (by norm_num) true 100 (Web.GetOutcome.responded 200)).2.1
      (by norm_num),
   (c8_outer_deadline 12 (by norm_num) true 30 (Web.GetOutcome.responded 200)).2.2
      (by norm_num)⟩

namespace Web

/-- The context available to the `except` branch of `get_page_title`
(web.py lines 390-400): the `Content-Disposition` header of the response
(when a response exists), and the path and hostname of the parsed URL. -/
structure TitleFallbackCtx where
  content_disposition : Option String
  url_path : String
  url_hostname : Option String
deriving DecidableEq, Repr

/-- How the `except` branch of `get_page_title` ends. -/
inductive TitleResult where
  /-- A value is returned (possibly `None`). -/
  | returned (t : Option String)
  /-- `TypeError` propagates out of `get_page_title`. -/
  | typeErrorRaised
deriving DecidableEq, Repr

/-- Python `path.rsplit('/', 1)[-1]`: the part after the last slash. -/
def rsplitTail (s : String) : String := (s.splitOn "/").getLastD s

/-- Embeds the `except` branch of `get_page_title` (web.py lines 390-400).
`contentDispositionFilenameParser` (web.py line 66) is
`partial(re.compile(r'(?<=filename=").+?(?=")').search, flags=re.I)`, and a
compiled pattern's `search` accepts no `flags` keyword argument, so every
invocation of the parser raises `TypeError`; hence a present
`Content-Disposition` header makes the branch raise instead of degrading.
With no such header, `filename_match` is `None` and the branch degrades
through the URL path tail (when `allow_path`; `None` when the path is
empty) and then the hostname (when `allow_hostname`), else `None`. -/
def get_page_title_on_failure (ctx : TitleFallbackCtx)
    (allow_hostname allow_path allow_filename : Bool) : TitleResult :=
  match ctx.content_disposition with
  | some _ => TitleResult.typeErrorRaised
  | none =>
      let filename_match : Option String := none
      if filename_match.isSome ∧ allow_filename then
        TitleResult.returned filename_match
      else if allow_path then
        TitleResult.returned
          (if ctx.url_path = "" then none else some (rsplitTail ctx.url_path))
      else if allow_hostname then
        TitleResult.returned ctx.url_hostname
      else
        TitleResult.returned none

end Web

/-- C9: contrary to the claim that `get_page_title` never raises and degrades
to the Content-Disposition filename first, the filename parser is a
compiled pattern's `search` partially applied with a `flags` keyword that
`search` does not accept, so the failure branch raises `TypeError` whenever
a `Content-Disposition` header is present. -/
theorem c9_title_fallback_type_error :
    Web.get_page_title_on_failure
        ⟨some "attachment; filename=x.pdf", "dir/page.html", some "example.com"⟩
        true true true =
      Web.TitleResult.typeErrorRaised := rfl

namespace Web

/-- Python truthiness of an optional string header value: `None` and the
empty string are falsy. -/
def pyTruthy (o : Option String) : Bool :=
  match o with
  | none => false
  | some s => !s.isEmpty

/-- The body read performed by `__norm_callback` when the content-type gate
passes (web.py lines 146-153). -/
inductive ReadAction where
  /-- `await response.text()`. -/
  | fullTextDecode
  /-- `await response.read()`. -/
  | fullRead
  /-- `await response.content.read(n)` with
  `n = min(int(headers.get('Content-Length', str(max_size))), max_size)`. -/
  | cappedRead (n : Int)
deriving DecidableEq, Repr

/-- Python `str.startswith` on strings: the second string is a leading run
of the first, computed on the underlying character lists. -/
def startswith (s pre : String) : Bool := s.data.take pre.data.length == pre.data

/-- Embeds `__norm_callback` (web.py lines 142-154): the gate passes when
`intended_content_type` is falsy, or the `Content-Type` header is falsy
(absent or empty), or the header starts with the intended prefix; past the
gate, `decode` reads the full decoded text, `max_size = None` reads the
full body, a positive `max_size` reads at most
`min(declared Content-Length, max_size)` bytes, and any other `max_size`
falls through; in every remaining case `None` is returned. -/
def norm_callback (content_type : Option String) (content_length : Option Int)
    (decode : Bool) (max_size : Option Int)
    (intended_content_type : Option String) : Option ReadAction :=
  if !pyTruthy intended_content_type || !pyTruthy content_type
      || startswith (content_type.getD "") (intended_content_type.getD "") then
    if decode then
      some ReadAction.fullTextDecode
    else
      match max_size with
      | none => some ReadAction.fullRead
      | some m =>
          if 0 < m then some (ReadAction.cappedRead (min (content_length.getD m) m))
          else none
  else
    none

end Web

/-- C10 counterexample: with no `Content-Type` header at all (and a truthy
intended type), a call with `decode = False` and `max_size = 0` returns no
content, although the claim says the gate passes and the body is read and
returned, and that only a present non-matching `Content-Type` causes no
content. -/
theorem c10_no_header_counterexample :
    Web.norm_callback none (some 5) false (some 0) (some "text/html") = none := rfl

/-- C10 (amended): for a truthy intended content type, the callback returns
no content exactly when a present, non-empty `Content-Type` header does not
start with the intended prefix, or the read policy itself declines the body
(`decode` unset and `max_size` set to a nonpositive value); in particular,
with no `Content-Type` header the gate passes and the body is read and
returned whenever the read policy reads one. -/
theorem c10_norm_callback_gate (ct : Option String) (cl : Option Int)
    (decode : Bool) (ms : Option Int) (intended : Option String)
    (hint : Web.pyTruthy intended = true) :
    Web.norm_callback ct cl decode ms intended = none ↔
      ((Web.pyTruthy ct = true ∧
          Web.startswith (ct.getD "") (intended.getD "") = false) ∨
        (decode = false ∧ ∃ m : Int, ms = some m ∧ m ≤ 0)) := by
  unfold Web.norm_callback
  rw [hint]
  by_cases hct : Web.pyTruthy ct = true
  · by_cases hsw : Web.startswith (ct.getD "") (intended.getD "") = true
    · rw [hct, hsw]
      cases decode with
      | true => simp
      | false =>
          cases ms with
          | none => simp
          | some m =>
              by_cases hm : 0 < m
              · simp [hm, hsw]
              · simp [hm, hsw]
                omega
    · rw [hct]
      rw [Bool.not_eq_true] at hsw
      rw [hsw]
      simp [hsw]
  · rw [Bool.not_eq_true] at hct
    rw [hct]
    cases decode with
    | true => simp [hct]
    | false =>
        cases ms with
        | none => simp [hct]
        | some m =>
            by_cases hm : 0 < m
            · simp [hm, hct]
            · simp [hm, hct]
              omega

/-- C10 witness: a present non-matching `Content-Type` yields no content, and
an absent one with an unbounded read yields a full body read. -/
theorem c10_norm_callback_gate_witness :
    Web.norm_callback (some "application/json") none false none (some "text/html") =
      none ∧
    Web.norm_callback none none false none (some "text/html") ≠ none :=
  ⟨(c10_norm_callback_gate (some "application/json") none false none
        (some "text/html") (by decide)).mpr
      (Or.inl ⟨by decide, by decide⟩),
   fun h =>
     by
      rcases (c10_norm_callback_gate none none false none
          (some "text/html") (by decide)).mp h with h1 | h2
      · exact absurd h1.1 (by decide)
      · rcases h2.2 with ⟨m, hm, _⟩
        exact Option.noConfusion hm⟩
